import Mathlib

/-!
# Verification of the GigaChat_VSA conversation core

Shallow embedding of the repository's Python modules:

* `gigachat_client.py` — settings resolution (`_resolve_settings`), client
  creation (`_create_client`), wire-payload construction and reply
  normalization (`generate_reply`);
* `state.py` — session-state operations (`init_state`, `add_message`,
  `clear_chat`, `set_error`);
* `app.py` — the turn-dispatch logic of `render_chat`;
* `config.py` — the constants `DEFAULT_MODEL_PARAMS` and `AVAILABLE_MODES`.

Python dictionaries are modelled as association lists with last-write-wins
lookup, JSON values as an inductive type, `json.loads` as a fuel-indexed
recursive-descent routine, machine state as explicit records, and Python
exceptions as `Except` errors.
-/

set_option autoImplicit false

namespace GigaChatVSA

/-! ## JSON values

A decoded JSON document, as produced by Python's `json.loads`.
JSON numbers with a fraction or exponent part decode to Python floats; they
are represented symbolically by their digit lists (constructor `fnum`), which
is all the repository ever observes of them (truthiness). Integer literals
decode to `num`. Objects keep their fields in source order; lookup takes the
last binding, matching Python dict construction where later duplicate keys
overwrite earlier ones. -/
inductive JValue : Type where
  | null : JValue
  | bool (b : Bool) : JValue
  | num (n : Int) : JValue
  | fnum (neg : Bool) (ip fp : List Nat) (ex : Int) : JValue
  | str (s : String) : JValue
  | arr (elems : List JValue) : JValue
  | obj (fields : List (String × JValue)) : JValue

/-- Lookup in a decoded JSON object: the value of the LAST binding of `k`,
matching Python dict semantics (later duplicate keys overwrite earlier). -/
def jLookup (fs : List (String × JValue)) (k : String) : Option JValue :=
  fs.foldl (fun acc p => if p.1 = k then some p.2 else acc) none

/-- Python truthiness of a value decoded from JSON: `None`, `False`, zero,
the empty string, the empty list and the empty dict are falsy. -/
def jTruthy : JValue → Bool
  | .null => false
  | .bool b => b
  | .num n => decide (n ≠ 0)
  | .fnum _ ip fp _ => ip.any (fun d => decide (d ≠ 0)) || fp.any (fun d => decide (d ≠ 0))
  | .str s => !s.isEmpty
  | .arr xs => !xs.isEmpty
  | .obj fs => !fs.isEmpty

/-! ## `json.loads` (fuel-indexed recursive descent)

A faithful executable model of parsing a JSON document text, strict in the
way Python's `json.loads` is: leading zeros are rejected, a fraction or
exponent needs at least one digit, trailing non-whitespace input is an
error, unescaped control characters in strings are rejected. -/

/-- Skip JSON whitespace (space, tab, newline, carriage return). -/
def skipWs : List Char → List Char
  | c :: rest =>
    if c = ' ' ∨ c = '\t' ∨ c = '\n' ∨ c = '\r' then skipWs rest else c :: rest
  | [] => []

/-- Value of one hexadecimal digit. -/
def hexVal? (c : Char) : Option Nat :=
  if '0' ≤ c ∧ c ≤ '9' then some (c.toNat - '0'.toNat)
  else if 'a' ≤ c ∧ c ≤ 'f' then some (c.toNat - 'a'.toNat + 10)
  else if 'A' ≤ c ∧ c ≤ 'F' then some (c.toNat - 'A'.toNat + 10)
  else none

/-- Parse the body of a JSON string literal (after the opening quote),
returning the decoded characters and the input after the closing quote. -/
def parseStringBody : Nat → List Char → Option (List Char × List Char)
  | 0, _ => none
  | _ + 1, [] => none
  | fuel + 1, c :: rest =>
    if c = '"' then some ([], rest)
    else if c = '\\' then
      match rest with
      | [] => none
      | e :: rest2 =>
        let esc? : Option (Char × List Char) :=
          if e = '"' then some ('"', rest2)
          else if e = '\\' then some ('\\', rest2)
          else if e = '/' then some ('/', rest2)
          else if e = 'b' then some ('\x08', rest2)
          else if e = 'f' then some ('\x0c', rest2)
          else if e = 'n' then some ('\n', rest2)
          else if e = 'r' then some ('\r', rest2)
          else if e = 't' then some ('\t', rest2)
          else if e = 'u' then
            match rest2 with
            | h1 :: h2 :: h3 :: h4 :: rest3 =>
              match hexVal? h1, hexVal? h2, hexVal? h3, hexVal? h4 with
              | some a, some b, some c2, some d =>
                  some (Char.ofNat (((a * 16 + b) * 16 + c2) * 16 + d), rest3)
              | _, _, _, _ => none
            | _ => none
          else none
        match esc? with
        | none => none
        | some (ch, rest3) =>
          match parseStringBody fuel rest3 with
          | some (cs, r) => some (ch :: cs, r)
          | none => none
    else if c.toNat < 32 then none
    else
      match parseStringBody fuel rest with
      | some (cs, r) => some (c :: cs, r)
      | none => none

/-- Take a maximal run of decimal digits. -/
def takeDigits : List Char → List Nat × List Char
  | c :: rest =>
    if '0' ≤ c ∧ c ≤ '9' then
      let p := takeDigits rest
      ((c.toNat - '0'.toNat) :: p.1, p.2)
    else ([], c :: rest)
  | [] => ([], [])

/-- Decimal value of a digit list. -/
def natOfDigits (ds : List Nat) : Nat := ds.foldl (fun a d => a * 10 + d) 0

/-- Parse an optional JSON exponent part; `none` in the result means no
exponent was present. -/
def parseExpPart : List Char → Option (Option Int × List Char)
  | c :: rest =>
    if c = 'e' ∨ c = 'E' then
      let sr : Int × List Char :=
        match rest with
        | '+' :: r => (1, r)
        | '-' :: r => (-1, r)
        | r => (1, r)
      match takeDigits sr.2 with
      | ([], _) => none
      | (ds, r3) => some (some (sr.1 * (natOfDigits ds : Int)), r3)
    else some (none, c :: rest)
  | [] => some (none, [])

/-- Parse a JSON number. Integer literals become `JValue.num`; literals with
a fraction or exponent part (Python floats) become `JValue.fnum`. Leading
zeros are rejected as in Python's `json`. -/
def parseNumber (s : List Char) : Option (JValue × List Char) :=
  let ns : Bool × List Char := match s with | '-' :: r => (true, r) | _ => (false, s)
  match takeDigits ns.2 with
  | ([], _) => none
  | (ip, r1) =>
    if 1 < ip.length ∧ ip.headD 1 = 0 then none
    else
      let fr : Option (Option (List Nat) × List Char) :=
        match r1 with
        | '.' :: r2 =>
          match takeDigits r2 with
          | ([], _) => none
          | (fp, r3) => some (some fp, r3)
        | _ => some (none, r1)
      match fr with
      | none => none
      | some (fp?, r4) =>
        match parseExpPart r4 with
        | none => none
        | some (ex?, r5) =>
          match fp?, ex? with
          | none, none =>
            let mag : Int := (natOfDigits ip : Int)
            some (.num (if ns.1 then -mag else mag), r5)
          | _, _ => some (.fnum ns.1 ip (fp?.getD []) (ex?.getD 0), r5)

mutual

/-- Parse one JSON value (after skipping leading whitespace). -/
def parseValue : Nat → List Char → Option (JValue × List Char)
  | 0, _ => none
  | fuel + 1, s =>
    match skipWs s with
    | [] => none
    | c :: rest =>
      if c = '{' then parseObjFields fuel rest []
      else if c = '[' then parseArrElems fuel rest []
      else if c = '"' then
        match parseStringBody (rest.length + 1) rest with
        | some (cs, r) => some (.str (String.mk cs), r)
        | none => none
      else if c = 't' then
        match rest with
        | 'r' :: 'u' :: 'e' :: r => some (.bool true, r)
        | _ => none
      else if c = 'f' then
        match rest with
        | 'a' :: 'l' :: 's' :: 'e' :: r => some (.bool false, r)
        | _ => none
      else if c = 'n' then
        match rest with
        | 'u' :: 'l' :: 'l' :: r => some (.null, r)
        | _ => none
      else if c = '-' ∨ ('0' ≤ c ∧ c ≤ '9') then parseNumber (c :: rest)
      else none

/-- Parse the elements of a JSON array, after the opening bracket
(`acc` holds the elements already read). -/
def parseArrElems : Nat → List Char → List JValue → Option (JValue × List Char)
  | 0, _, _ => none
  | fuel + 1, s, acc =>
    match skipWs s with
    | ']' :: r => if acc.isEmpty then some (.arr [], r) else none
    | s1 =>
      match parseValue fuel s1 with
      | none => none
      | some (v, r1) =>
        match skipWs r1 with
        | ',' :: r2 => parseArrElems fuel r2 (acc ++ [v])
        | ']' :: r2 => some (.arr (acc ++ [v]), r2)
        | _ => none

/-- Parse the fields of a JSON object, after the opening brace
(`acc` holds the fields already read, in source order). -/
def parseObjFields : Nat → List Char → List (String × JValue) →
    Option (JValue × List Char)
  | 0, _, _ => none
  | fuel + 1, s, acc =>
    match skipWs s with
    | '}' :: r => if acc.isEmpty then some (.obj [], r) else none
    | '"' :: r =>
      match parseStringBody (r.length + 1) r with
      | none => none
      | some (kcs, r1) =>
        match skipWs r1 with
        | ':' :: r2 =>
          match parseValue fuel r2 with
          | none => none
          | some (v, r3) =>
            let acc1 := acc ++ [(String.mk kcs, v)]
            match skipWs r3 with
            | ',' :: r4 => parseObjFields fuel r4 acc1
            | '}' :: r4 => some (.obj acc1, r4)
            | _ => none
        | _ => none
    | _ => none

end

/-- Model of `json.loads`: parse a complete JSON document; trailing non-whitespace
input is an error, exactly as in Python. The error value models
`json.JSONDecodeError`. -/
def json_loads (s : String) : Except Unit JValue :=
  match parseValue (s.length + 1) s.data with
  | some (v, rest) => if (skipWs rest).isEmpty then .ok v else .error ()
  | none => .error ()

/-! ## Reply normalization (`generate_reply`, lines 250-259)

```python
try:
    data = json.loads(raw_content)
    reply_text = (
        data.get("answer", {}).get("user")
        or raw_content  # fallback, if the structure did not match
    )
except (json.JSONDecodeError, TypeError):
    reply_text = raw_content
```

The `except` clause catches only `json.JSONDecodeError` and `TypeError`
(`TypeError` can only arise from a non-string argument to `json.loads`,
which cannot happen here since the input is a string). An `AttributeError`
raised by `.get` on a non-dict value is NOT caught and escapes. -/

/-- A Python exception escaping the normalization step. -/
inductive PyExc : Type where
  | attributeError : PyExc
deriving DecidableEq

/-- Python `v.get(k, default)`: defined on dicts, `AttributeError` on every
other value (lists, strings, numbers, booleans, `None` have no `.get`). -/
def pyValGet (v : JValue) (k : String) (default : JValue) : Except PyExc JValue :=
  match v with
  | .obj fs => .ok ((jLookup fs k).getD default)
  | _ => .error .attributeError

/-- The reply-normalization step of `generate_reply`: decode the raw model
output as JSON and unwrap `answer.user`. Python `None` and JSON `null`
decode to the same value, so `data.get("answer", {})` is `pyValGet` with
default `obj []` and `.get("user")` is `pyValGet` with default `null`;
`x or raw_content` is Python truthiness selection. The result is whatever
Python value `reply_text` ends up holding (it need not be a string). -/
def normalize (raw_content : String) : Except PyExc JValue :=
  match json_loads raw_content with
  | .error _ => .ok (.str raw_content)
  | .ok data =>
    match pyValGet data "answer" (.obj []) with
    | .error e => .error e
    | .ok answer =>
      match pyValGet answer "user" .null with
      | .error e => .error e
      | .ok u => .ok (if jTruthy u then u else .str raw_content)

/-! ## Python dictionaries as association lists

Messages in the transcript are Python dicts built by `add_message`
(`state.py`). We model a dict as an association list in insertion order;
`pyGet` returns the value of the last binding, `pyDictSet` models
`d[k] = v` (replace in place if present, else append), `pyDictUpdate`
models `d.update(m)`. -/

/-- A Python dict with string keys and JSON-like values. -/
abbrev PyDict := List (String × JValue)

/-- Python `d.get(k)`-style lookup: value of the last binding of `k`, if any. -/
def pyGet (d : PyDict) (k : String) : Option JValue :=
  d.foldl (fun acc p => if p.1 = k then some p.2 else acc) none

/-- Python `d[k] = v`: replace the binding in place if the key is present,
otherwise append a new binding. -/
def pyDictSet (d : PyDict) (k : String) (v : JValue) : PyDict :=
  if d.any (fun p => p.1 = k) then
    d.map (fun p => if p.1 = k then (k, v) else p)
  else d ++ [(k, v)]

/-- Python `d.update(m)`: set each binding of `m` in order. -/
def pyDictUpdate (d : PyDict) (m : PyDict) : PyDict :=
  m.foldl (fun acc p => pyDictSet acc p.1 p.2) d

/-! ## Settings resolution (`gigachat_client.py`)

`_get_settings_from_env` reads four environment variables (the model name
with default `"GigaChat-2"`); `_get_settings_from_streamlit` reads the same
keys from `st.secrets["gigachat"]` when Streamlit is importable and the
section exists (again with the model default), returning an empty dict
otherwise; `_resolve_settings` starts from the environment layer and
overwrites each field whose secrets-layer value is not `None`. -/

/-- Python truthiness of an optional string (`None` and `""` are falsy). -/
def pyFalsyO : Option String → Bool
  | none => true
  | some s => s.isEmpty

/-- The four-field settings dict returned by the `_get_settings_*`
functions; `none` models Python `None`. -/
structure LayerSettings : Type where
  credentials : Option String
  scope : Option String
  model : Option String
  ca_bundle_file : Option String
deriving DecidableEq

/-- The contents of `st.secrets["gigachat"]`: each field is `none` when the
key is absent from the section (so that `cfg.get(k)` returns `None`). -/
structure SecretsCfg : Type where
  credentials : Option String
  scope : Option String
  model : Option String
  ca_bundle_file : Option String
deriving DecidableEq

/-- Model of `_get_settings_from_env()`; `env` is the process environment mapping.
The model name defaults to `"GigaChat-2"`, so it is never `None`. -/
def getSettingsFromEnv (env : String → Option String) : LayerSettings :=
  { credentials := env "GIGACHAT_CREDENTIALS"
    scope := env "GIGACHAT_SCOPE"
    model := some ((env "GIGACHAT_MODEL").getD "GigaChat-2")
    ca_bundle_file := env "GIGACHAT_CA_BUNDLE_FILE" }

/-- Model of `_get_settings_from_streamlit()`: `none` models the empty dict returned
when Streamlit is unavailable (`stAvail = false`) or `st.secrets` has no
`"gigachat"` section (`secrets = none`). When the section exists, each
field is `cfg.get(key)` — `None` for an absent key — except the model,
which is `cfg.get("model", "GigaChat-2")` and hence never `None`. -/
def getSettingsFromStreamlit (stAvail : Bool) (secrets : Option SecretsCfg) :
    Option LayerSettings :=
  if !stAvail then none
  else
    match secrets with
    | none => none
    | some cfg =>
      some { credentials := cfg.credentials
             scope := cfg.scope
             model := some (cfg.model.getD "GigaChat-2")
             ca_bundle_file := cfg.ca_bundle_file }

/-- Overwrite semantics of the `_resolve_settings` loop for one field:
`settings[key] = value` happens whenever `value is not None`. -/
def overrideField (old new : Option String) : Option String :=
  match new with
  | none => old
  | some v => some v

/-- Model of `_resolve_settings()`: the environment layer overwritten, field by
field, by every non-`None` value of the secrets layer. -/
def resolveSettings (env : String → Option String) (stAvail : Bool)
    (secrets : Option SecretsCfg) : LayerSettings :=
  let settings := getSettingsFromEnv env
  if stAvail then
    match getSettingsFromStreamlit stAvail secrets with
    | none => settings
    | some sec =>
      { credentials := overrideField settings.credentials sec.credentials
        scope := overrideField settings.scope sec.scope
        model := overrideField settings.model sec.model
        ca_bundle_file := overrideField settings.ca_bundle_file sec.ca_bundle_file }
  else settings

/-! ## Client creation and the completion call (`_create_client`,
`generate_reply`)

Network interaction is recorded as an explicit event trace: `_create_client`
performs one TLS pre-flight `requests.get` after the credentials check, and
`generate_reply` performs one `client.chat(payload)` call. The outcomes of
both external calls are oracle parameters. -/

/-- Sampling parameters (`model_params` dict): each field optional, as a
dict key may be absent. `Rat` stands in for the Python float temperature. -/
structure ModelParams : Type where
  temperature : Option ℚ
  max_tokens : Option ℤ
deriving DecidableEq

/-- The constant `config.DEFAULT_MODEL_PARAMS = {"temperature": 0.1, "max_tokens": 8192}`. -/
def DEFAULT_MODEL_PARAMS : ModelParams :=
  { temperature := some (1 / 10), max_tokens := some 8192 }

/-- The SDK enum `gigachat.models.MessagesRole`. -/
inductive MessagesRole : Type where
  | system : MessagesRole
  | user : MessagesRole
  | assistant : MessagesRole
deriving DecidableEq

/-- One SDK `Messages` entry of the wire call. The content is whatever
value `m.get("content", "")` produced. -/
structure WireMessage : Type where
  role : MessagesRole
  content : JValue

/-- The `Chat` payload of the single completion request. -/
structure ChatPayload : Type where
  messages : List WireMessage
  temperature : ℚ
  max_tokens : ℤ
  model : String

/-- A network interaction performed by the client module. -/
inductive NetEvent : Type where
  | preflight (verify : Option String) : NetEvent
  | chatCall (payload : ChatPayload) : NetEvent

/-- Outcome of the TLS pre-flight `requests.get` (an oracle): success, an
`SSLError`, or any other exception (which the code swallows). -/
inductive PreflightOutcome : Type where
  | ok : PreflightOutcome
  | sslError (msg : String) : PreflightOutcome
  | otherError : PreflightOutcome

/-- Errors escaping `generate_reply` (and `_create_client`), by raise site:
the credentials/scope `RuntimeError`, the SSL pre-flight `RuntimeError`,
any exception of the `client.chat` wire call, and a Python exception from
the normalization step. -/
inductive AppErr : Type where
  | config (msg : String) : AppErr
  | ssl (msg : String) : AppErr
  | provider (msg : String) : AppErr
  | py (e : PyExc) : AppErr

/-- The message of the credentials/scope `RuntimeError` in `_create_client`. -/
def configErrorMsg : String :=
  "Не заданы параметры GigaChat (credentials/scope). " ++
  "Укажите их в st.secrets['gigachat'] или в переменных окружения."

/-- The message of the SSL pre-flight `RuntimeError` in `_create_client`. -/
def sslErrorMsg (bundle : Option String) (sslErr : String) : String :=
  "Ошибка проверки SSL-сертификата GigaChat. Проверь ca_bundle_file='" ++
  (match bundle with | none => "None" | some b => b) ++ "': " ++ sslErr

/-- The constructed `GigaChat` SDK client. -/
structure Client : Type where
  credentials : String
  scope : String
  model : String
  ca_bundle_file : Option String
  verify_ssl_certs : Bool

/-- Model of `_create_client()`: resolve settings, raise on missing credentials or
scope BEFORE any network call, then perform the TLS pre-flight (an
`SSLError` becomes a `RuntimeError`, other pre-flight exceptions are
swallowed) and build the SDK client. Returns the result together with the
trace of network events performed. -/
def createClient (env : String → Option String) (stAvail : Bool)
    (secrets : Option SecretsCfg) (pre : PreflightOutcome) :
    Except AppErr Client × List NetEvent :=
  let settings := resolveSettings env stAvail secrets
  if pyFalsyO settings.credentials || pyFalsyO settings.scope then
    (.error (.config configErrorMsg), [])
  else
    let evs := [NetEvent.preflight settings.ca_bundle_file]
    match pre with
    | .sslError m => (.error (.ssl (sslErrorMsg settings.ca_bundle_file m)), evs)
    | _ =>
      (.ok { credentials := settings.credentials.getD ""
             scope := settings.scope.getD ""
             model := settings.model.getD "GigaChat-2"
             ca_bundle_file := settings.ca_bundle_file
             verify_ssl_certs := true }, evs)

/-- Python `==` between a JSON-decoded value and a string literal: equal
strings compare equal, any non-string value compares unequal. -/
def jEqStr (v : JValue) (s : String) : Bool :=
  match v with
  | .str t => t = s
  | _ => false

/-- The role dispatch of `generate_reply`: `m.get("role", "user")` compared
against the three role strings by an if/elif chain; everything else —
unknown strings and non-string values alike — is coerced to `USER`. -/
def roleOfVal (v : JValue) : MessagesRole :=
  if jEqStr v "user" then .user
  else if jEqStr v "assistant" then .assistant
  else if jEqStr v "system" then .system
  else .user

/-- One transcript dict converted to an SDK `Messages` entry:
`Messages(role=roleOfVal(m.get("role", "user")), content=m.get("content", ""))`. -/
def wireOfDict (m : PyDict) : WireMessage :=
  { role := roleOfVal ((pyGet m "role").getD (.str "user"))
    content := (pyGet m "content").getD (.str "") }

/-- Model of `generate_reply(messages, model_params, system_prompt, model_name)`.
Oracles: `pre` is the pre-flight outcome and `chatResult` the outcome of
`client.chat` (`.error` models a raised exception, carrying its message;
`.ok` carries `response.choices[0].message.content`). Returns the value of
`reply_text` (or the escaping exception) together with the network-event
trace. -/
def generateReply (env : String → Option String) (stAvail : Bool)
    (secrets : Option SecretsCfg) (messages : List PyDict)
    (model_params : Option ModelParams) (system_prompt : Option String)
    (model_name : Option String) (pre : PreflightOutcome)
    (chatResult : Except String String) :
    Except AppErr JValue × List NetEvent :=
  let mp := model_params.getD DEFAULT_MODEL_PARAMS
  let settings := resolveSettings env stAvail secrets
  let effectiveModelName : String :=
    match model_name with
    | some s => if s.isEmpty then settings.model.getD "GigaChat-2" else s
    | none => settings.model.getD "GigaChat-2"
  let sdkMessages : List WireMessage :=
    (match system_prompt with
     | some sp => if sp.isEmpty then [] else [⟨.system, .str sp⟩]
     | none => []) ++ messages.map wireOfDict
  let payload : ChatPayload :=
    { messages := sdkMessages
      temperature := mp.temperature.getD (1 / 2)
      max_tokens := mp.max_tokens.getD 1024
      model := effectiveModelName }
  match createClient env stAvail secrets pre with
  | (.error e, evs) => (.error e, evs)
  | (.ok _, evs) =>
    let evs := evs ++ [NetEvent.chatCall payload]
    match chatResult with
    | .error m => (.error (.provider m), evs)
    | .ok raw =>
      match normalize raw with
      | .error e => (.error (.py e), evs)
      | .ok v => (.ok v, evs)

/-! ## Session state (`state.py`, `config.py`)

`st.session_state` is modelled as a record with one `Option` per key: `none`
means the key is absent from the session ("unset"), `some v` that it is
present holding `v`. The `last_error` key can be present and hold Python
`None`, hence its doubled `Option`. `model_name` is a session key used by
`app.py` (set by the sidebar's model selector) but never touched by
`init_state`. -/

/-- The session-state keys the application uses. -/
structure SessionState : Type where
  messages : Option (List PyDict)
  mode : Option String
  system_prompt : Option String
  model_params : Option ModelParams
  is_thinking : Option Bool
  last_error : Option (Option String)
  model_name : Option String

/-- The three prompt texts resolved by `config._read_prompt` (file contents
or the hardcoded fallbacks — resolved outside this model). -/
structure Prompts : Type where
  assistent : String
  coder : String
  analyst : String

/-- The registry `config.AVAILABLE_MODES`: mode name to its `system_prompt`, in the
insertion order of the Python dict literal. -/
def AVAILABLE_MODES (P : Prompts) : List (String × String) :=
  [("Ассистент", P.assistent), ("Кодер", P.coder), ("Аналитик", P.analyst)]

/-- Subscripting `AVAILABLE_MODES[m]`-style lookup (mode keys are unique). -/
def modeLookup (P : Prompts) (m : String) : Option String :=
  ((AVAILABLE_MODES P).find? (fun p => p.1 = m)).map (fun p => p.2)

/-- A Python exception escaping `init_state`: the `KeyError` of
`AVAILABLE_MODES[st.session_state.mode]`. -/
inductive StExc : Type where
  | keyError (k : String) : StExc

/-- Model of `state.init_state()`: each of the six managed keys is given its default
iff it is absent. The `system_prompt` default subscripts `AVAILABLE_MODES`
with the current mode, raising `KeyError` when that mode is not a registry
key. (`DEFAULT_MODEL_PARAMS.copy()` is plain `DEFAULT_MODEL_PARAMS` in this
pure model.) -/
def init_state (P : Prompts) (s0 : SessionState) : Except StExc SessionState :=
  let s1 := if s0.messages.isNone then { s0 with messages := some [] } else s0
  let s2 :=
    if s1.mode.isNone then
      { s1 with mode := some (((AVAILABLE_MODES P).map (fun p => p.1)).headD "") }
    else s1
  let sp? : Except StExc SessionState :=
    if s2.system_prompt.isNone then
      -- after step 2 the `mode` key is always present
      let m := s2.mode.getD ""
      match modeLookup P m with
      | none => .error (.keyError m)
      | some sp => .ok { s2 with system_prompt := some sp }
    else .ok s2
  match sp? with
  | .error e => .error e
  | .ok s3 =>
    let s4 :=
      if s3.model_params.isNone then { s3 with model_params := some DEFAULT_MODEL_PARAMS }
      else s3
    let s5 := if s4.is_thinking.isNone then { s4 with is_thinking := some false } else s4
    let s6 := if s5.last_error.isNone then { s5 with last_error := some none } else s5
    .ok s6

/-- The message dict built by `state.add_message`:
`message = {"role": role, "content": content}` followed by
`message.update(meta)` when `meta` is non-empty. -/
def buildMessage (role : String) (content : JValue) (meta : PyDict) : PyDict :=
  let message := pyDictSet (pyDictSet [] "role" (.str role)) "content" content
  if meta.isEmpty then message else pyDictUpdate message meta

/-- Model of `state.add_message(role, content, **meta)` acting on the `messages`
list: append the built dict at the end. -/
def add_message (msgs : List PyDict) (role : String) (content : JValue)
    (meta : PyDict) : List PyDict :=
  msgs ++ [buildMessage role content meta]

/-- The operation `add_message` repeated over a list of calls, in order. -/
def addMessages (msgs : List PyDict) (calls : List (String × JValue × PyDict)) :
    List PyDict :=
  calls.foldl (fun acc c => add_message acc c.1 c.2.1 c.2.2) msgs

/-- Python `TypeError` kinds raised while binding a call against the
signature `add_message(role: str, content: str, **meta)`. -/
inductive PyCallExc : Type where
  | typeErrorMultipleValues (arg : String) : PyCallExc
  | typeErrorMissing (arg : String) : PyCallExc
  | typeErrorTooManyPositional : PyCallExc
deriving DecidableEq

/-- CPython keyword binding for `add_message(role, content, **meta)`:
process the keyword items in order; a keyword named `role` or `content`
binds that parameter — raising `TypeError` ("got multiple values for
argument") when it is already bound — while every other keyword is
collected into the `meta` dict; after all keywords, an unbound parameter
raises `TypeError` ("missing required argument"). Consequently the
collected `meta` can never contain the keys `role` or `content`. -/
def bindKw : List (String × JValue) → Option JValue → Option JValue → PyDict →
    Except PyCallExc (JValue × JValue × PyDict)
  | [], role?, content?, meta =>
    match role?, content? with
    | some r, some c => .ok (r, c, meta)
    | none, _ => .error (.typeErrorMissing "role")
    | _, none => .error (.typeErrorMissing "content")
  | (k, v) :: rest, role?, content?, meta =>
    if k = "role" then
      match role? with
      | some _ => .error (.typeErrorMultipleValues "role")
      | none => bindKw rest (some v) content? meta
    else if k = "content" then
      match content? with
      | some _ => .error (.typeErrorMultipleValues "content")
      | none => bindKw rest role? (some v) meta
    else bindKw rest role? content? (pyDictSet meta k v)

/-- CPython binding of a call `add_message(*args, **kwargs)`: at most two
positional arguments (binding `role` then `content`), then the keywords. -/
def bindAddMessageCall (args : List JValue) (kwargs : List (String × JValue)) :
    Except PyCallExc (JValue × JValue × PyDict) :=
  if 2 < args.length then .error .typeErrorTooManyPositional
  else bindKw kwargs args.head? args[1]? []

/-- The body of `add_message` on arbitrary bound values (the `str`
annotations of the Python signature are not enforced): the dict literal
`{"role": role, "content": content}` followed by the conditional
`message.update(meta)`. -/
def buildMessageV (role content : JValue) (meta : PyDict) : PyDict :=
  let message := pyDictSet (pyDictSet [] "role" role) "content" content
  if meta.isEmpty then message else pyDictUpdate message meta

/-- A full call `state.add_message(*args, **kwargs)` on a transcript:
CPython argument binding followed by the body; a binding `TypeError`
escapes before the body runs, so nothing is appended. -/
def add_message_call (msgs : List PyDict) (args : List JValue)
    (kwargs : List (String × JValue)) : Except PyCallExc (List PyDict) :=
  match bindAddMessageCall args kwargs with
  | .error e => .error e
  | .ok rcm => .ok (msgs ++ [buildMessageV rcm.1 rcm.2.1 rcm.2.2])

/-- Model of `state.clear_chat()`: assign `messages = []` and `last_error = None`
(assignment creates the keys when absent). -/
def clear_chat (st : SessionState) : SessionState :=
  { st with messages := some [], last_error := some none }

/-- Model of `state.set_error(error_text)`. -/
def set_error (st : SessionState) (error_text : Option String) : SessionState :=
  { st with last_error := some error_text }

/-! ## The turn dispatch of `app.py` (`render_chat`, lines 187-226)

The submission block mutates three session keys: `messages`, `is_thinking`
and `last_error`; all three exist once `main` has run `init_state`. The
outcome of the `generate_reply` call is an oracle (`.error` models a raised
exception carrying the text interpolated into the error banner, `.ok` the
returned reply value). -/

/-- The session keys `render_chat` mutates, after initialization. -/
structure ChatTurnState : Type where
  messages : List PyDict
  is_thinking : Bool
  last_error : Option String

/-- The f-string head of the `render_chat` error message. -/
def chatErrorHead : String := "Ошибка при обращении к GigaChat: "

/-- The submission block of `render_chat`: on a truthy `user_input`, clear
the previous error, append the user message, set the thinking flag, call
`generate_reply`; on an exception record the error and clear the flag
without appending, on success append the assistant message and clear the
flag. A falsy input (no submission) leaves the state unchanged. -/
def renderChatTurn (s : ChatTurnState) (user_input : Option String)
    (replyResult : Except String JValue) : ChatTurnState :=
  match user_input with
  | none => s
  | some input =>
    if input.isEmpty then s
    else
      let s1 : ChatTurnState :=
        { messages := add_message s.messages "user" (.str input) []
          is_thinking := true
          last_error := none }
      match replyResult with
      | .error exc =>
        { s1 with last_error := some (chatErrorHead ++ exc), is_thinking := false }
      | .ok reply =>
        { s1 with messages := add_message s1.messages "assistant" reply []
                  is_thinking := false }

/-! ## Concrete inputs used in closed theorems -/

/-- A model reply whose envelope carries a non-string truthy leaf:
`{"answer":{"user":5}}`. -/
def nonStringLeafInput : String := "\x7b\"answer\":\x7b\"user\":5\x7d\x7d"

/-- A model reply that is a JSON array: `["x"]`. -/
def arrayInput : String := "[\"x\"]"

/-- The round-trip reply of the spec: `{"answer":{"user":"X"}}`. -/
def roundTripInput : String := "\x7b\"answer\":\x7b\"user\":\"X\"\x7d\x7d"

/-- The wrong-shape reply of the spec: `{"other":"shape"}`. -/
def otherShapeInput : String := "\x7b\"other\":\"shape\"\x7d"

/-- An environment carrying only `GIGACHAT_CREDENTIALS=ENVCRED`. -/
def envWithCreds : String → Option String :=
  fun k => if k = "GIGACHAT_CREDENTIALS" then some "ENVCRED" else none

/-- An environment carrying credentials and scope. -/
def envFull : String → Option String :=
  fun k =>
    if k = "GIGACHAT_CREDENTIALS" then some "c"
    else if k = "GIGACHAT_SCOPE" then some "s"
    else none

/-- A session with every key absent (a fresh Streamlit session). -/
def emptySession : SessionState :=
  { messages := none, mode := none, system_prompt := none, model_params := none
    is_thinking := none, last_error := none, model_name := none }

/-- Concrete prompt texts for closed theorems. -/
def testPrompts : Prompts := { assistent := "pa", coder := "pc", analyst := "pn" }

/-! # Theorems -/

/-! ## Association-list dictionary lemmas -/

theorem pyGet_foldl_acc (k : String) (d : PyDict) (acc : Option JValue) :
    d.foldl (fun a p => if p.1 = k then some p.2 else a) acc =
      match pyGet d k with
      | some v => some v
      | none => acc := by
  induction d generalizing acc with
  | nil => rfl
  | cons p d ih =>
    show d.foldl _ (if p.1 = k then some p.2 else acc) = _
    rw [ih]
    have h2 : pyGet (p :: d) k =
        match pyGet d k with
        | some v => some v
        | none => if p.1 = k then some p.2 else none := by
      show d.foldl _ (if p.1 = k then some p.2 else none) = _
      rw [ih]
    rw [h2]
    cases pyGet d k <;> by_cases h : p.1 = k <;> simp [h]

theorem pyGet_cons (p : String × JValue) (d : PyDict) (k : String) :
    pyGet (p :: d) k =
      match pyGet d k with
      | some v => some v
      | none => if p.1 = k then some p.2 else none := by
  show d.foldl _ (if p.1 = k then some p.2 else none) = _
  rw [pyGet_foldl_acc]

theorem pyGet_eq_none_of_not_mem (d : PyDict) (k : String)
    (h : d.any (fun p => p.1 = k) = false) : pyGet d k = none := by
  induction d with
  | nil => rfl
  | cons p d ih =>
    simp only [List.any_cons, Bool.or_eq_false_iff] at h
    rw [pyGet_cons, ih h.2]
    simp [of_decide_eq_false h.1]

theorem pyGet_set (d : PyDict) (k : String) (v : JValue) (k' : String) :
    pyGet (pyDictSet d k v) k' = if k' = k then some v else pyGet d k' := by
  unfold pyDictSet
  by_cases hany : d.any (fun p => p.1 = k) = true
  · rw [if_pos hany]
    induction d with
    | nil => simp at hany
    | cons p d ih =>
      rw [List.map_cons, pyGet_cons, pyGet_cons]
      by_cases hd : d.any (fun p => p.1 = k) = true
      · rw [ih hd]
        by_cases hk : k' = k
        · subst hk; simp
        · by_cases hp : p.1 = k <;> cases hg : pyGet d k' <;>
            simp [hk, hp, Ne.symm hk]
      · have hdf : d.any (fun p => p.1 = k) = false := by
          cases h : d.any (fun p => p.1 = k) with
          | false => rfl
          | true => exact absurd h hd
        have hp : p.1 = k := by
          rcases List.any_eq_true.mp hany with ⟨a, ha, hak⟩
          rcases List.mem_cons.mp ha with h | h
          · exact h ▸ of_decide_eq_true hak
          · exact absurd (List.any_eq_true.mpr ⟨a, h, hak⟩) hd
        have hnone : pyGet d k = none := pyGet_eq_none_of_not_mem d k hdf
        have hmap : d.map (fun p => if p.1 = k then (k, v) else p) = d := by
          conv_rhs => rw [← List.map_id d]
          refine List.map_congr_left ?_
          intro a ha
          have hak : a.1 ≠ k := fun hak =>
            hd (List.any_eq_true.mpr ⟨a, ha, decide_eq_true hak⟩)
          simp [hak]
        rw [hmap]
        by_cases hk : k' = k
        · subst hk
          rw [hnone]
          simp [hp]
        · cases hg : pyGet d k' <;> simp [hg, hk, hp, Ne.symm hk]
  · rw [if_neg hany]
    have hdf : d.any (fun p => p.1 = k) = false := by
      cases h : d.any (fun p => p.1 = k) with
      | false => rfl
      | true => exact absurd h hany
    have hnone : pyGet d k = none := pyGet_eq_none_of_not_mem d k hdf
    show pyGet (d ++ [(k, v)]) k' = _
    unfold pyGet
    rw [List.foldl_append]
    show (if k = k' then some v else _) = _
    rw [pyGet_foldl_acc]
    by_cases hk : k' = k
    · subst hk
      rw [hnone]
    · cases hg : pyGet d k' <;> simp [hg, hk, Ne.symm hk, pyGet]

theorem pyGet_update (d m : PyDict) (k : String) :
    pyGet (pyDictUpdate d m) k =
      match pyGet m k with
      | some v => some v
      | none => pyGet d k := by
  induction m generalizing d with
  | nil => rfl
  | cons p m ih =>
    show pyGet (pyDictUpdate (pyDictSet d p.1 p.2) m) k = _
    rw [ih, pyGet_cons, pyGet_set]
    cases hg : pyGet m k with
    | some v => simp [hg]
    | none =>
      by_cases hk : p.1 = k
      · simp [hg, hk]
      · simp [hg, hk, Ne.symm hk]

/-- The dict literal `{"role": role, "content": content}`. -/
theorem buildMessage_base (role : String) (content : JValue) :
    pyDictSet (pyDictSet [] "role" (.str role)) "content" content =
      [("role", .str role), ("content", content)] := rfl

theorem pyGet_buildMessage_role (role : String) (content : JValue) (meta : PyDict)
    (h : pyGet meta "role" = none) :
    pyGet (buildMessage role content meta) "role" = some (.str role) := by
  unfold buildMessage
  rw [buildMessage_base]
  by_cases hm : meta.isEmpty
  · rw [if_pos hm]
    rfl
  · rw [if_neg hm, pyGet_update, h]
    rfl

theorem pyGet_buildMessage_content (role : String) (content : JValue) (meta : PyDict)
    (h : pyGet meta "content" = none) :
    pyGet (buildMessage role content meta) "content" = some content := by
  unfold buildMessage
  rw [buildMessage_base]
  by_cases hm : meta.isEmpty
  · rw [if_pos hm]
    rfl
  · rw [if_neg hm, pyGet_update, h]
    rfl

/-! ## Claim theorems: conversation-state operations -/

/-- C8: For every session state, `clear_chat` replaces `messages` with
the empty sequence and sets `last_error` to `None`, and leaves every other
field — active mode, model name, system prompt, and sampling parameters
(and the thinking flag) — unchanged. -/
theorem clear_chat_clears_messages_and_error_only (st : SessionState) :
    (clear_chat st).messages = some [] ∧
    (clear_chat st).last_error = some none ∧
    (clear_chat st).mode = st.mode ∧
    (clear_chat st).model_name = st.model_name ∧
    (clear_chat st).system_prompt = st.system_prompt ∧
    (clear_chat st).model_params = st.model_params ∧
    (clear_chat st).is_thinking = st.is_thinking :=
  ⟨rfl, rfl, rfl, rfl, rfl, rfl, rfl⟩

/-- C9: `add_message` leaves all existing messages unchanged in place
and adds exactly one new message at the end holding the given role and
content (the metadata keyword arguments of a Python call never contain
`role` or `content` — those bind to the named parameters — which the two
`pyGet ... = none` hypotheses express); after N appends the transcript
equals the prior transcript followed by the built messages in call order. -/
theorem add_message_appends_one_in_order
    (msgs : List PyDict) (role : String) (content : JValue) (meta : PyDict)
    (hr : pyGet meta "role" = none) (hc : pyGet meta "content" = none)
    (calls : List (String × JValue × PyDict)) :
    (add_message msgs role content meta).take msgs.length = msgs ∧
    (add_message msgs role content meta).length = msgs.length + 1 ∧
    (add_message msgs role content meta).getLast? =
      some (buildMessage role content meta) ∧
    pyGet (buildMessage role content meta) "role" = some (.str role) ∧
    pyGet (buildMessage role content meta) "content" = some content ∧
    addMessages msgs calls =
      msgs ++ calls.map (fun c => buildMessage c.1 c.2.1 c.2.2) := by
  refine ⟨?_, ?_, ?_, pyGet_buildMessage_role role content meta hr,
    pyGet_buildMessage_content role content meta hc, ?_⟩
  · exact List.take_left msgs [buildMessage role content meta]
  · simp [add_message]
  · simp [add_message]
  · induction calls generalizing msgs with
    | nil => simp [addMessages]
    | cons c cs ih =>
      simp only [addMessages, List.foldl_cons, List.map_cons] at *
      rw [show add_message msgs c.1 c.2.1 c.2.2 =
            msgs ++ [buildMessage c.1 c.2.1 c.2.2] from rfl] at *
      rw [ih]
      simp

/-- Witness for C9 at a concrete call with non-interfering metadata. -/
theorem add_message_appends_one_in_order_witness :
    pyGet (buildMessage "user" (.str "hi") [("t", .num 1)]) "role" =
      some (.str "user") :=
  (add_message_appends_one_in_order [] "user" (.str "hi") [("t", .num 1)]
    rfl rfl []).2.2.2.1

/-- The dict literal `{"role": role, "content": content}` on arbitrary
bound values. -/
theorem buildMessageV_base (role content : JValue) :
    pyDictSet (pyDictSet [] "role" role) "content" content =
      [("role", role), ("content", content)] := rfl

theorem pyGet_buildMessageV_role (role content : JValue) (meta : PyDict)
    (h : pyGet meta "role" = none) :
    pyGet (buildMessageV role content meta) "role" = some role := by
  unfold buildMessageV
  rw [buildMessageV_base]
  by_cases hm : meta.isEmpty
  · rw [if_pos hm]
    rfl
  · rw [if_neg hm, pyGet_update, h]
    rfl

theorem pyGet_buildMessageV_content (role content : JValue) (meta : PyDict)
    (h : pyGet meta "content" = none) :
    pyGet (buildMessageV role content meta) "content" = some content := by
  unfold buildMessageV
  rw [buildMessageV_base]
  by_cases hm : meta.isEmpty
  · rw [if_pos hm]
    rfl
  · rw [if_neg hm, pyGet_update, h]
    rfl

/-- Successful keyword binding never places `role` or `content` into the
collected metadata dict. -/
theorem bindKw_ok_meta (kwargs : List (String × JValue)) :
    ∀ (role? content? : Option JValue) (meta0 : PyDict)
      (r c : JValue) (m : PyDict),
      pyGet meta0 "role" = none → pyGet meta0 "content" = none →
      bindKw kwargs role? content? meta0 = .ok (r, c, m) →
      pyGet m "role" = none ∧ pyGet m "content" = none := by
  induction kwargs with
  | nil =>
    intro role? content? meta0 r c m hr hc h
    cases role? with
    | none => exact absurd h (by simp [bindKw])
    | some rv =>
      cases content? with
      | none => exact absurd h (by simp [bindKw])
      | some cv =>
        simp only [bindKw, Except.ok.injEq, Prod.mk.injEq] at h
        obtain ⟨-, -, rfl⟩ := h
        exact ⟨hr, hc⟩
  | cons p rest ih =>
    obtain ⟨k, v⟩ := p
    intro role? content? meta0 r c m hr hc h
    by_cases hk1 : k = "role"
    · subst hk1
      cases role? with
      | some rv => exact absurd h (by simp [bindKw])
      | none =>
        simp only [bindKw, if_pos rfl] at h
        exact ih (some v) content? meta0 r c m hr hc h
    · by_cases hk2 : k = "content"
      · subst hk2
        cases content? with
        | some cv => exact absurd h (by simp [bindKw, hk1])
        | none =>
          simp only [bindKw, if_neg hk1, if_pos rfl] at h
          exact ih role? (some v) meta0 r c m hr hc h
      · simp only [bindKw, if_neg hk1, if_neg hk2] at h
        refine ih role? content? (pyDictSet meta0 k v) r c m ?_ ?_ h
        · rw [pyGet_set, if_neg (fun hh => hk1 hh.symm)]
          exact hr
        · rw [pyGet_set, if_neg (fun hh => hk2 hh.symm)]
          exact hc

/-- With both parameters already bound positionally, a keyword item named
`role` or `content` makes the binding fail, so it never returns. -/
theorem bindKw_ne_ok_of_param_kw (kwargs : List (String × JValue)) :
    ∀ (r0 c0 : JValue) (meta : PyDict),
      ((pyGet kwargs "role").isSome ∨ (pyGet kwargs "content").isSome) →
      ∀ r c m, bindKw kwargs (some r0) (some c0) meta ≠ .ok (r, c, m) := by
  induction kwargs with
  | nil =>
    intro r0 c0 meta h
    simp [pyGet] at h
  | cons p rest ih =>
    obtain ⟨k, v⟩ := p
    intro r0 c0 meta h r c m
    by_cases hk1 : k = "role"
    · subst hk1
      simp [bindKw]
    · by_cases hk2 : k = "content"
      · subst hk2
        simp [bindKw, hk1]
      · have h' : (pyGet rest "role").isSome ∨ (pyGet rest "content").isSome := by
          rcases h with h | h
          · left
            rw [pyGet_cons] at h
            cases hg : pyGet rest "role" with
            | some w => simp [hg]
            | none =>
              rw [hg] at h
              simp [hk1] at h
          · right
            rw [pyGet_cons] at h
            cases hg : pyGet rest "content" with
            | some w => simp [hg]
            | none =>
              rw [hg] at h
              simp [hk2] at h
        simp only [bindKw, if_neg hk1, if_neg hk2]
        exact ih r0 c0 (pyDictSet meta k v) h' r c m

/-- C10 counterexample: the claim's calls cannot produce a shadowed
message. Passing `role` both positionally and in the metadata mapping
raises `TypeError: got multiple values for argument` at binding time, so
no message is appended at all; and passing `role`/`content` by keyword
alone binds the parameters themselves (the collected metadata stays
empty), so the stored fields come from the arguments, not from metadata
shadowing. -/
theorem add_message_call_counterexample_shadowing_unreachable :
    add_message_call [] [.str "user", .str "hi"] [("role", .str "admin")] =
      .error (.typeErrorMultipleValues "role") ∧
    add_message_call [] [] [("role", .str "admin"), ("content", .str "hi")] =
      .ok [buildMessageV (.str "admin") (.str "hi") []] :=
  ⟨rfl, rfl⟩

/-- C10 amended: metadata passed to `add_message` can never shadow the
stored role or content. CPython keyword binding for
`add_message(role, content, **meta)` never places `role` or `content` into
the collected metadata: whenever binding succeeds the metadata dict lacks
those keys and the appended message's `role` and `content` equal the bound
arguments; and a call supplying them both positionally and as keywords
raises `TypeError` and appends nothing, so the body's
`message.update(meta)` shadowing is unreachable. -/
theorem add_message_call_meta_cannot_shadow
    (msgs : List PyDict) (args : List JValue)
    (kwargs : List (String × JValue)) (role content : JValue) (meta : PyDict) :
    (bindAddMessageCall args kwargs = .ok (role, content, meta) →
      (pyGet meta "role" = none ∧
       pyGet meta "content" = none ∧
       add_message_call msgs args kwargs =
         .ok (msgs ++ [buildMessageV role content meta]) ∧
       pyGet (buildMessageV role content meta) "role" = some role ∧
       pyGet (buildMessageV role content meta) "content" = some content)) ∧
    (((pyGet kwargs "role").isSome ∨ (pyGet kwargs "content").isSome) →
      args.length = 2 →
      ∀ res, add_message_call msgs args kwargs ≠ .ok res) := by
  constructor
  · intro h
    by_cases hlen : 2 < args.length
    · rw [bindAddMessageCall, if_pos hlen] at h
      exact absurd h (by simp)
    · rw [bindAddMessageCall, if_neg hlen] at h
      obtain ⟨hr, hc⟩ :=
        bindKw_ok_meta kwargs args.head? args[1]? [] role content meta rfl rfl h
      refine ⟨hr, hc, ?_, pyGet_buildMessageV_role role content meta hr,
        pyGet_buildMessageV_content role content meta hc⟩
      unfold add_message_call
      rw [bindAddMessageCall, if_neg hlen, h]
  · intro hmem hlen res hcall
    rcases args with _ | ⟨a, args1⟩
    · simp at hlen
    rcases args1 with _ | ⟨b, args2⟩
    · simp at hlen
    rcases args2 with _ | ⟨c0, args3⟩
    · unfold add_message_call bindAddMessageCall at hcall
      rcases hb : bindKw kwargs [a, b].head? [a, b][1]? [] with e | rcm
      · rw [hb] at hcall
        simp at hcall
      · obtain ⟨r', c', m'⟩ := rcm
        exact bindKw_ne_ok_of_param_kw kwargs a b [] hmem r' c' m' hb
    · simp at hlen

/-- Witness for C10 (amended) at a concrete call with ordinary metadata:
binding succeeds, collects only the `t` key, and appends the message with
the argument role and content. -/
theorem add_message_call_meta_cannot_shadow_witness :
    add_message_call [] [.str "user", .str "hi"] [("t", .num 1)] =
      .ok [buildMessageV (.str "user") (.str "hi") [("t", .num 1)]] :=
  (((add_message_call_meta_cannot_shadow [] [.str "user", .str "hi"]
      [("t", .num 1)] (.str "user") (.str "hi") [("t", .num 1)]).1) rfl).2.2.1

/-! ## Claim theorems: the turn dispatch of `render_chat` -/

/-- C5: When the completion call fails with a provider error,
`last_error` afterwards is a non-empty message embedding the underlying
cause, no assistant message is appended — the transcript is exactly the
prior messages followed by the user message — and the thinking flag
(`pending_reply`) is false. -/
theorem renderChatTurn_provider_error
    (s : ChatTurnState) (input : String) (hin : input ≠ "") (exc : String) :
    renderChatTurn s (some input) (.error exc) =
      { messages := s.messages ++ [buildMessage "user" (.str input) []]
        is_thinking := false
        last_error := some (chatErrorHead ++ exc) } ∧
    chatErrorHead ++ exc ≠ "" := by
  constructor
  · have hempty : input.isEmpty = false := by
      cases h : input.isEmpty
      · rfl
      · exact absurd ((String.isEmpty_iff input).mp h) hin
    simp [renderChatTurn, hempty, add_message]
  · intro h
    have h0 : (chatErrorHead ++ exc).length = 0 := by rw [h]; rfl
    have hlen : 0 < chatErrorHead.length := by decide
    rw [String.length_append] at h0
    omega

/-- Witness for C5 at a concrete failing turn. -/
theorem renderChatTurn_provider_error_witness :
    renderChatTurn ⟨[], false, some "old"⟩ (some "hi") (.error "boom") =
      { messages := [buildMessage "user" (.str "hi") []]
        is_thinking := false
        last_error := some (chatErrorHead ++ "boom") } := by
  have h := renderChatTurn_provider_error ⟨[], false, some "old"⟩ "hi"
    (by decide) "boom"
  simpa using h.1

/-! ## Claim theorems: reply normalization -/

/-- C1 counterexample: The claim says a non-string `user` leaf makes
`normalize` return the original raw text unchanged; on
`{"answer":{"user":5}}` the code instead returns the leaf `5` itself
(`5 or raw_content` selects `5`), so the result is not the raw text. -/
theorem normalize_counterexample_nonstring_leaf :
    normalize nonStringLeafInput = .ok (.num 5) ∧
    normalize nonStringLeafInput ≠ .ok (.str nonStringLeafInput) := by
  have h : normalize nonStringLeafInput = .ok (.num 5) := rfl
  refine ⟨h, ?_⟩
  rw [h]
  intro hc
  injection hc with h2
  exact JValue.noConfusion h2

/-- C1 amended: Case analysis of the normalization step: a parse
failure returns the raw text; an object whose `answer` is an object with a
truthy `user` value returns that value (whatever Python value it is, not
only non-empty strings); an object with `answer` absent, or with an
object-valued `answer` whose `user` is absent or falsy, returns the raw
text; but a parsed non-object value, or an object whose `answer` value is
itself not an object, raises `AttributeError` (which the `except` clause
does not catch). -/
theorem normalize_cases (raw : String) :
    (json_loads raw = .error () → normalize raw = .ok (.str raw)) ∧
    (∀ fs afs u, json_loads raw = .ok (.obj fs) →
      jLookup fs "answer" = some (.obj afs) →
      jLookup afs "user" = some u → jTruthy u = true →
      normalize raw = .ok u) ∧
    (∀ fs, json_loads raw = .ok (.obj fs) → jLookup fs "answer" = none →
      normalize raw = .ok (.str raw)) ∧
    (∀ fs afs, json_loads raw = .ok (.obj fs) →
      jLookup fs "answer" = some (.obj afs) → jLookup afs "user" = none →
      normalize raw = .ok (.str raw)) ∧
    (∀ fs afs u, json_loads raw = .ok (.obj fs) →
      jLookup fs "answer" = some (.obj afs) →
      jLookup afs "user" = some u → jTruthy u = false →
      normalize raw = .ok (.str raw)) ∧
    (∀ v, json_loads raw = .ok v → (∀ gs, v ≠ .obj gs) →
      normalize raw = .error .attributeError) ∧
    (∀ fs a, json_loads raw = .ok (.obj fs) → jLookup fs "answer" = some a →
      (∀ gs, a ≠ .obj gs) → normalize raw = .error .attributeError) := by
  refine ⟨?_, ?_, ?_, ?_, ?_, ?_, ?_⟩
  · intro h
    simp [normalize, h]
  · intro fs afs u h1 h2 h3 h4
    simp [normalize, h1, pyValGet, h2, h3, h4]
  · intro fs h1 h2
    simp [normalize, h1, pyValGet, h2, show jLookup [] "user" = none from rfl,
      jTruthy]
  · intro fs afs h1 h2 h3
    simp [normalize, h1, pyValGet, h2, h3, jTruthy]
  · intro fs afs u h1 h2 h3 h4
    simp [normalize, h1, pyValGet, h2, h3, h4]
  · intro v h1 h2
    cases v with
    | obj gs => exact absurd rfl (h2 gs)
    | null => simp [normalize, h1, pyValGet]
    | bool b => simp [normalize, h1, pyValGet]
    | num n => simp [normalize, h1, pyValGet]
    | fnum a b c d => simp [normalize, h1, pyValGet]
    | str s => simp [normalize, h1, pyValGet]
    | arr xs => simp [normalize, h1, pyValGet]
  · intro fs a h1 h2 h3
    cases a with
    | obj gs => exact absurd rfl (h3 gs)
    | null => simp [normalize, h1, pyValGet, h2]
    | bool b => simp [normalize, h1, pyValGet, h2]
    | num n => simp [normalize, h1, pyValGet, h2]
    | fnum a b c d => simp [normalize, h1, pyValGet, h2]
    | str s => simp [normalize, h1, pyValGet, h2]
    | arr xs => simp [normalize, h1, pyValGet, h2]

/-- Witness for C1: the spec's round trip `{"answer":{"user":"X"}}` gives
`"X"`, and the wrong shape `{"other":"shape"}` is returned unchanged. -/
theorem normalize_cases_witness :
    normalize roundTripInput = .ok (.str "X") ∧
    normalize otherShapeInput = .ok (.str otherShapeInput) :=
  ⟨(normalize_cases roundTripInput).2.1 [("answer", .obj [("user", .str "X")])]
      [("user", .str "X")] (.str "X") rfl rfl rfl rfl,
   (normalize_cases otherShapeInput).2.2.1 [("other", .str "shape")] rfl rfl⟩

/-- C2: The normalization step is NOT total: on the JSON-array reply
`["x"]` the parse succeeds, `data.get("answer", {})` raises
`AttributeError` (a Python list has no `.get`), and the `except` clause —
which names only `json.JSONDecodeError` and `TypeError` — lets it escape,
although the code's own comment promises a fallback when the structure
does not match. -/
theorem normalize_raises_on_array_reply :
    json_loads arrayInput = .ok (.arr [.str "x"]) ∧
    normalize arrayInput = .error .attributeError :=
  ⟨rfl, rfl⟩

/-! ## Claim theorems: settings resolution -/

/-- C3 counterexample: An empty-string secret value is not `None`, so
`_resolve_settings` lets it override the environment value: with
`GIGACHAT_CREDENTIALS=ENVCRED` in the environment and
`credentials = ""` in the secrets store, the resolved credentials are
`""`, not the environment value — refuting "only non-empty secret values
override". -/
theorem resolveSettings_counterexample_empty_secret_overrides :
    (getSettingsFromEnv envWithCreds).credentials = some "ENVCRED" ∧
    (resolveSettings envWithCreds true
        (some { credentials := some "", scope := none, model := none,
                ca_bundle_file := none })).credentials = some "" ∧
    (resolveSettings envWithCreds true
        (some { credentials := some "", scope := none, model := none,
                ca_bundle_file := none })).credentials ≠
      (getSettingsFromEnv envWithCreds).credentials := by
  refine ⟨rfl, rfl, ?_⟩
  intro h
  simp [resolveSettings, getSettingsFromEnv, getSettingsFromStreamlit,
    overrideField, envWithCreds] at h

/-- C3 amended: The secrets layer overrides the environment layer field
by field, a field overriding exactly when its secrets value is not `None`
(an empty string does override); when Streamlit or the `gigachat` secrets
section is absent, every field resolves to the environment value; and the
`model` field of an existing secrets section is never `None` (it defaults
to `GigaChat-2`), so it always overrides the environment model. -/
theorem resolveSettings_merge (env : String → Option String)
    (secrets : Option SecretsCfg) (cfg : SecretsCfg) :
    (resolveSettings env false secrets = getSettingsFromEnv env) ∧
    (resolveSettings env true none = getSettingsFromEnv env) ∧
    (secrets = some cfg →
      ((cfg.credentials = none →
          (resolveSettings env true secrets).credentials =
            (getSettingsFromEnv env).credentials) ∧
       (∀ v, cfg.credentials = some v →
          (resolveSettings env true secrets).credentials = some v) ∧
       (cfg.scope = none →
          (resolveSettings env true secrets).scope =
            (getSettingsFromEnv env).scope) ∧
       (∀ v, cfg.scope = some v →
          (resolveSettings env true secrets).scope = some v) ∧
       (cfg.ca_bundle_file = none →
          (resolveSettings env true secrets).ca_bundle_file =
            (getSettingsFromEnv env).ca_bundle_file) ∧
       (∀ v, cfg.ca_bundle_file = some v →
          (resolveSettings env true secrets).ca_bundle_file = some v) ∧
       (resolveSettings env true secrets).model =
         some (cfg.model.getD "GigaChat-2"))) := by
  refine ⟨rfl, rfl, ?_⟩
  rintro rfl
  refine ⟨?_, ?_, ?_, ?_, ?_, ?_, ?_⟩
  · intro h
    simp [resolveSettings, getSettingsFromStreamlit, overrideField, h]
  · intro v h
    simp [resolveSettings, getSettingsFromStreamlit, overrideField, h]
  · intro h
    simp [resolveSettings, getSettingsFromStreamlit, overrideField, h]
  · intro v h
    simp [resolveSettings, getSettingsFromStreamlit, overrideField, h]
  · intro h
    simp [resolveSettings, getSettingsFromStreamlit, overrideField, h]
  · intro v h
    simp [resolveSettings, getSettingsFromStreamlit, overrideField, h]
  · simp [resolveSettings, getSettingsFromStreamlit, overrideField]

/-- Witness for C3 (amended): a `None` secret credentials field falls back
to the environment value. -/
theorem resolveSettings_merge_witness :
    (resolveSettings envWithCreds true
        (some { credentials := none, scope := some "sc", model := none,
                ca_bundle_file := none })).credentials =
      (getSettingsFromEnv envWithCreds).credentials :=
  ((resolveSettings_merge envWithCreds
      (some { credentials := none, scope := some "sc", model := none,
              ca_bundle_file := none })
      { credentials := none, scope := some "sc", model := none,
        ca_bundle_file := none }).2.2 rfl).1 rfl

/-! ## Claim theorems: the completion requester -/

/-- C4: When the resolved credentials or scope are empty or missing,
`generate_reply` fails with the configuration `RuntimeError` (the spec's
`ConfigurationError`) and performs no network interaction at all: the
event trace is empty, so neither the TLS pre-flight nor the completion
wire call is issued. -/
theorem generateReply_missing_config_makes_no_network_call
    (env : String → Option String) (stAvail : Bool) (secrets : Option SecretsCfg)
    (messages : List PyDict) (model_params : Option ModelParams)
    (system_prompt model_name : Option String) (pre : PreflightOutcome)
    (chatResult : Except String String)
    (h : pyFalsyO (resolveSettings env stAvail secrets).credentials = true ∨
      pyFalsyO (resolveSettings env stAvail secrets).scope = true) :
    generateReply env stAvail secrets messages model_params system_prompt
        model_name pre chatResult =
      (.error (.config configErrorMsg), []) := by
  unfold generateReply createClient
  rcases h with h | h <;> simp [h]

/-- Witness for C4 at an empty environment. -/
theorem generateReply_missing_config_makes_no_network_call_witness :
    generateReply (fun _ => none) false none [] none none none .ok (.ok "r") =
      (.error (.config configErrorMsg), []) :=
  generateReply_missing_config_makes_no_network_call (fun _ => none) false none
    [] none none none .ok (.ok "r") (Or.inl rfl)

/-- C6: With valid configuration and a pre-flight that does not fail
with an SSL error, exactly one completion request is issued, carrying: the
system prompt first iff it is non-empty, then every transcript message in
order (role and content read from the dict), plus temperature, max_tokens
and the effective model name; and every unrecognized role string is
coerced to `user`. -/
theorem generateReply_wire_payload
    (env : String → Option String) (stAvail : Bool) (secrets : Option SecretsCfg)
    (messages : List PyDict) (model_params : Option ModelParams)
    (system_prompt model_name : Option String) (pre : PreflightOutcome)
    (chatResult : Except String String)
    (hc : pyFalsyO (resolveSettings env stAvail secrets).credentials = false)
    (hs : pyFalsyO (resolveSettings env stAvail secrets).scope = false)
    (hp : ∀ m, pre ≠ .sslError m) :
    (generateReply env stAvail secrets messages model_params system_prompt
        model_name pre chatResult).2.filterMap
        (fun e => match e with | .chatCall p => some p | _ => none) =
      [{ messages :=
           (if pyFalsyO system_prompt then []
            else [⟨.system, .str (system_prompt.getD "")⟩]) ++
             messages.map wireOfDict
         temperature :=
           (model_params.getD DEFAULT_MODEL_PARAMS).temperature.getD (1 / 2)
         max_tokens :=
           (model_params.getD DEFAULT_MODEL_PARAMS).max_tokens.getD 1024
         model :=
           match model_name with
           | some s =>
             if s.isEmpty then
               (resolveSettings env stAvail secrets).model.getD "GigaChat-2"
             else s
           | none =>
             (resolveSettings env stAvail secrets).model.getD "GigaChat-2" }] ∧
    (∀ r : String, r ≠ "user" → r ≠ "assistant" → r ≠ "system" →
      roleOfVal (.str r) = .user) ∧
    (∀ m : PyDict, wireOfDict m =
      { role := roleOfVal ((pyGet m "role").getD (.str "user"))
        content := (pyGet m "content").getD (.str "") }) := by
  refine ⟨?_, ?_, fun m => rfl⟩
  · have hsys : (match system_prompt with
        | some sp => if sp.isEmpty then [] else [(⟨.system, .str sp⟩ : WireMessage)]
        | none => ([] : List WireMessage)) =
        (if pyFalsyO system_prompt then []
         else [(⟨.system, .str (system_prompt.getD "")⟩ : WireMessage)]) := by
      cases system_prompt with
      | none => rfl
      | some sp => by_cases h : sp.isEmpty <;> simp [pyFalsyO, h]
    unfold generateReply createClient
    simp only [hc, hs, Bool.or_self, Bool.or_false, Bool.false_or,
      Bool.false_eq_true, if_false]
    cases pre with
    | sslError m => exact absurd rfl (hp m)
    | ok =>
      cases chatResult with
      | error m => simp [List.filterMap, hsys]
      | ok raw =>
        rcases hnr : normalize raw with e | v <;>
          simp [hnr, List.filterMap, hsys]
    | otherError =>
      cases chatResult with
      | error m => simp [List.filterMap, hsys]
      | ok raw =>
        rcases hnr : normalize raw with e | v <;>
          simp [hnr, List.filterMap, hsys]
  · intro r h1 h2 h3
    simp [roleOfVal, jEqStr, h1, h2, h3]

/-- Witness for C6 at a concrete turn with an unknown role string. -/
theorem generateReply_wire_payload_witness :
    (generateReply envFull true none
        [[("role", .str "weird"), ("content", .str "x")]] none (some "sys")
        (some "GigaChat-2-Pro") .ok (.ok "hello")).2.filterMap
        (fun e => match e with | .chatCall p => some p | _ => none) =
      [{ messages := [⟨.system, .str "sys"⟩, ⟨.user, .str "x"⟩]
         temperature := 1 / 10
         max_tokens := 8192
         model := "GigaChat-2-Pro" }] := by
  have h := generateReply_wire_payload envFull true none
      [[("role", .str "weird"), ("content", .str "x")]] none (some "sys")
      (some "GigaChat-2-Pro") .ok (.ok "hello") rfl rfl (fun m hm => nomatch hm)
  simpa [wireOfDict, pyGet, roleOfVal, jEqStr, DEFAULT_MODEL_PARAMS,
    pyFalsyO] using h.1

/-! ## Claim theorems: session-state initialization -/

/-- C7 counterexample: On a completely fresh session every field is
unset, yet after `init_state` the `model_name` field is still unset — the
sidebar's model selector, not `init_state`, initializes it — refuting
"initialize fills each field of the session state iff it is currently
unset". -/
theorem init_state_counterexample_model_name :
    emptySession.model_name = none ∧
    init_state testPrompts emptySession =
      .ok { messages := some [], mode := some "Ассистент",
            system_prompt := some "pa",
            model_params := some DEFAULT_MODEL_PARAMS,
            is_thinking := some false, last_error := some none,
            model_name := none } :=
  ⟨rfl, rfl⟩

/-- C7 amended: `init_state` fills each of the six managed fields
(`messages`, `mode`, `system_prompt`, `model_params`, `is_thinking`,
`last_error`) iff it is currently unset, never overwrites a field that has
a value, leaves `model_name` untouched, and is idempotent. The hypothesis
is the spec's registry invariant: when the system prompt must be computed,
the (current or default) mode is a registry key. -/
theorem init_state_fills_absent_fields_idempotent (P : Prompts)
    (st : SessionState)
    (h : st.system_prompt = none →
      (modeLookup P (st.mode.getD "Ассистент")).isSome = true) :
    init_state P st = .ok
      { messages := some (st.messages.getD [])
        mode := some (st.mode.getD "Ассистент")
        system_prompt := some (st.system_prompt.getD
          ((modeLookup P (st.mode.getD "Ассистент")).getD ""))
        model_params := some (st.model_params.getD DEFAULT_MODEL_PARAMS)
        is_thinking := some (st.is_thinking.getD false)
        last_error := some (st.last_error.getD none)
        model_name := st.model_name } ∧
    (∀ st', init_state P st = .ok st' → init_state P st' = .ok st') := by
  obtain ⟨ms, mo, sp, mp, th, le, mn⟩ := st
  have main : init_state P ⟨ms, mo, sp, mp, th, le, mn⟩ = .ok
      { messages := some (ms.getD [])
        mode := some (mo.getD "Ассистент")
        system_prompt := some (sp.getD
          ((modeLookup P (mo.getD "Ассистент")).getD ""))
        model_params := some (mp.getD DEFAULT_MODEL_PARAMS)
        is_thinking := some (th.getD false)
        last_error := some (le.getD none)
        model_name := mn } := by
    cases sp with
    | some spv =>
      cases ms <;> cases mo <;> cases mp <;> cases th <;> cases le <;> rfl
    | none =>
      have h2 := h rfl
      cases mo with
      | none =>
        have h3 : (modeLookup P "Ассистент").getD "" = P.assistent := rfl
        cases ms <;> cases mp <;> cases th <;> cases le <;>
          simp [init_state, h3, modeLookup, AVAILABLE_MODES]
      | some m =>
        rcases hv : modeLookup P m with _ | v
        · rw [Option.getD_some] at h2
          rw [hv] at h2
          simp at h2
        · cases ms <;> cases mp <;> cases th <;> cases le <;>
            simp [init_state, hv]
  refine ⟨main, ?_⟩
  intro st' hst'
  rw [main] at hst'
  injection hst' with h2
  rw [← h2]
  rfl

/-- Witness for C7 (amended): a session with a chosen mode and an existing
transcript keeps both; the absent fields are filled. -/
theorem init_state_fills_absent_fields_idempotent_witness :
    init_state testPrompts
        { messages := some [[("role", .str "user"), ("content", .str "hi")]],
          mode := some "Кодер", system_prompt := none, model_params := none,
          is_thinking := none, last_error := none,
          model_name := some "GigaChat-2" } =
      .ok { messages := some [[("role", .str "user"), ("content", .str "hi")]],
            mode := some "Кодер", system_prompt := some "pc",
            model_params := some DEFAULT_MODEL_PARAMS,
            is_thinking := some false, last_error := some none,
            model_name := some "GigaChat-2" } := by
  have h := init_state_fills_absent_fields_idempotent testPrompts
      ⟨some [[("role", .str "user"), ("content", .str "hi")]], some "Кодер",
       none, none, none, none, some "GigaChat-2"⟩ (fun _ => rfl)
  simpa using h.1

end GigaChatVSA
